import Mathlib

/-!
Verification of the coreos-assembler testiso / QEMU install orchestration layer.

Shallow embedding of:
  * the Boot Signal Synchronizer (`switchBootOrderSignal`, part_000 lines 472-510)
  * the PXE install orchestrator (`Install.setup`, `installerRun`, `runPXE`,
    part_000 lines 215-588)
  * the ISO install orchestrator (`InstallViaISOEmbed`, part_000 lines 600-857)
  * `InstalledMachine.Destroy` (part_000 lines 156-165)
  * the readiness polling of `NewMachineWithQemuOptions` (cluster.go lines 216-257)

External effects (filesystem, subprocesses, QEMU, HTTP) are embedded as explicit
outcome parameters; machine state (temporary-directory ownership) is explicit state.
-/

namespace CoreosInstall

/-- The boot-progress marker literal (part_000 line 41: `bootStartedSignal`). -/
def bootStartedSignal : String := "boot-started-OK"

/-! ### Boot Signal Synchronizer (`switchBootOrderSignal`) -/

/-- Outcome of the one `ReadString('\n')` performed by the signal watcher
(part_000 line 486): a full line, end-of-stream with no data, or a non-EOF
read error. -/
inductive ReadOutcome where
  | line (s : String)
  | eofNoData
  | readErr (e : String)
deriving DecidableEq, Repr

/-- Error values a watcher can report to the boot-started channel.  Constructors
mirror the four error constructions in `switchBootOrderSignal`
(part_000 lines 481, 493, 495, 503). -/
inductive BootErr where
  | qemuUnexpectedExit (cause : String)
  | eofBeforeSignal
  | readFailed (e : String)
  | switchFailed (e : String)
deriving DecidableEq, Repr

/-- One install run's environment for the synchronizer: whether `Wait()` returned
during the observation window and with what error, whether the process was
signal-killed, what the signal-stream read yielded, and the outcome
`SwitchBootOrder` would produce if invoked. -/
structure SyncScenario where
  processDone : Bool
  waitErr : Option String
  signaled : Bool
  readOut : ReadOutcome
  switchErr : Option String
deriving DecidableEq, Repr

/-- The value (if any) the process watcher goroutine sends
(part_000 lines 474-483).  `none` means the goroutine never sends (process
still running, or clean un-signaled exit).  A sent value of `none` would mean
success; this watcher only ever sends errors. -/
def processWatcherSend (processDone : Bool) (waitErr : Option String)
    (signaled : Bool) : Option (Option BootErr) :=
  if !processDone then none
  else
    match waitErr with
    | some e => some (some (BootErr.qemuUnexpectedExit e))
    | none =>
      if signaled then some (some (BootErr.qemuUnexpectedExit "process killed"))
      else none

/-- The signal watcher goroutine (part_000 lines 484-509): returns whether
`SwitchBootOrder` was invoked, and the value it sends on the channel
(`none` = the success `nil` send at line 508).  Every path of this goroutine
ends in exactly one send.  Go's `strings.TrimSpace` is embedded as
`String.trim`. -/
def signalWatcherSend (r : ReadOutcome) (switchErr : Option String) :
    Bool × Option BootErr :=
  match r with
  | ReadOutcome.eofNoData => (false, some BootErr.eofBeforeSignal)
  | ReadOutcome.readErr e => (false, some (BootErr.readFailed e))
  | ReadOutcome.line l =>
    if l.trim == bootStartedSignal then
      match switchErr with
      | some e => (true, some (BootErr.switchFailed e))
      | none => (true, none)
    else
      (false, none)

/-- All sends attempted against the unbuffered boot-started channel in a
scenario (order is irrelevant to the counting claims). -/
def attemptedSends (sc : SyncScenario) : List (Option BootErr) :=
  (processWatcherSend sc.processDone sc.waitErr sc.signaled).toList
    ++ [(signalWatcherSend sc.readOut sc.switchErr).2]

/-- Channel semantics for the single consumer of `BootStartedErrorChannel`:
one receive on an unbuffered channel completes exactly one of the attempted
sends (any further would-be senders stay blocked and are never consumed). -/
def consumeOnce (sends : List (Option BootErr)) : List (Option BootErr) :=
  sends.take 1

/-- C1. In every synchronizer scenario — in particular the four named ones:
(a) process exit/kill before a line (`readOut = eofNoData`, `processDone`),
(b) a line arrives, (c) EOF with no data, (d) a non-EOF read error — at least
one send is attempted on the boot-started channel, and the single-slot
consumer consumes exactly one result: never zero, never more than one. -/
theorem c1_synchronizer_exactly_one_result (sc : SyncScenario) :
    1 ≤ (attemptedSends sc).length
      ∧ (consumeOnce (attemptedSends sc)).length = 1 := by
  unfold attemptedSends consumeOnce
  rcases processWatcherSend sc.processDone sc.waitErr sc.signaled with _ | v <;> simp

/-- C2. Signal watcher line handling: on a successfully read line, if the
trimmed line equals the marker then `SwitchBootOrder` is invoked and the
reported result is `nil` on success or the wrapped switch error on failure;
if the trimmed line differs from the marker, `SwitchBootOrder` is never
invoked and the reported result is the silent success `nil`. -/
theorem c2_signal_watcher_line_handling (l : String) (switchErr : Option String) :
    signalWatcherSend (ReadOutcome.line l) switchErr =
      (if l.trim == bootStartedSignal
       then (true, switchErr.map BootErr.switchFailed)
       else (false, none)) := by
  unfold signalWatcherSend
  rcases switchErr with _ | e <;> by_cases h : l.trim == bootStartedSignal <;> simp [h]

/-! ### Temporary-directory ownership model for the two orchestrators

Each fallible external effect of `Install.setup` / `runPXE` /
`InstallViaISOEmbed` is one step; a step list is interpreted over the
ownership state of the run's temporary directory.  An early `return err`
triggers the deferred cleanup (`os.RemoveAll(tempdir)` when the
`cleanupTempdir` flag is still set, or `installerRun.destroy`), exactly as in
the source. -/

/-- Names for the externally-effectful steps of the two install paths.  Each
constructor corresponds to one fallible call in part_000. -/
inductive Tag where
  | checkArtifacts
  | mkdirTemp
  | mkdirTftp
  | writeConfigIgn
  | writeLiveIgn
  | symlinkKernel
  | symlinkInitramfs
  | symlinkRootfs
  | removeInitrd
  | catInitrdRootfs
  | symlinkMetal
  | unsupportedArch
  | httpListen
  | virtioChannelRead
  | mkdirPxeConfig
  | writePxeConfig
  | mkS390Image
  | cpReflinkPxe
  | grub2Mknetdir
  | cpReflinkGrub
  | writeGrubCfg
  | unhandledBoottype
  | qemuExec
  | minimalOffline
  | offlineNmKeyfiles
  | writeTargetIgnTemp
  | writeTargetIgnOut
  | copyIso
  | chmodIso
  | isoExtractMinimal
  | renderPointerConfig
  | writePointerOut
  | writeKeyfile (name : String)
  | isoNetworkEmbed
  | isoKargsModify
  | yamlMarshal
  | writeLiveConfigOut
  | addIso
deriving DecidableEq, Repr

/-- One step of an install path.  `failable` is an external call that may
fail (early error return); `errIf` a deterministic validation returning an
error; `panicIf` a `panic(...)`; `createDir` the `os.MkdirTemp` that creates
the run's temporary directory and arms the deferred cleanup; `clearOrch` the
ownership-transfer write (`cleanupTempdir = false` / `t.tempdir = ""`);
`giveMachine` the construction of the returned `InstalledMachine` with its
`Tempdir` field set. -/
inductive Op where
  | failable (tag : Tag) (ok : Bool)
  | errIf (tag : Tag) (cond : Bool)
  | panicIf (tag : Tag) (cond : Bool)
  | createDir (tag : Tag) (ok : Bool)
  | clearOrch
  | giveMachine
deriving DecidableEq, Repr

/-- Ownership state of the run's temporary directory: whether it exists on
disk, whether an orchestrator exit path would delete it, and whether a
returned machine handle owns it. -/
structure OwnSt where
  dirExists : Bool
  orchOwns : Bool
  machOwns : Bool
deriving DecidableEq, Repr

/-- How a call ends: normal return, error return (tagged by the failing
step), or panic. -/
inductive Outcome where
  | ok
  | err (tag : Tag)
  | panicked (tag : Tag)
deriving DecidableEq, Repr

/-- Result of interpreting an install path: its outcome, final ownership
state, the sequence of ownership states passed through, and the tags of the
external actions that actually ran. -/
structure RunResult where
  outcome : Outcome
  final : OwnSt
  trace : List OwnSt
  executed : List Tag
deriving DecidableEq, Repr

/-- The deferred cleanup executed on every early exit (error or panic): if an
orchestrator cleanup is still armed, the temporary directory is removed
(part_000 lines 233-237, 381-387, 643-647). -/
def cleanupOnExit (s : OwnSt) : OwnSt :=
  if s.orchOwns then { dirExists := false, orchOwns := false, machOwns := s.machOwns }
  else s

/-- Interpreter for a step list over the ownership state. -/
def runOps : List Op → OwnSt → RunResult
  | [], s => ⟨Outcome.ok, s, [s], []⟩
  | Op.failable tag ok :: rest, s =>
    if ok then
      let r := runOps rest s
      ⟨r.outcome, r.final, s :: r.trace, tag :: r.executed⟩
    else
      ⟨Outcome.err tag, cleanupOnExit s, [s, cleanupOnExit s], [tag]⟩
  | Op.errIf tag cond :: rest, s =>
    if cond then
      ⟨Outcome.err tag, cleanupOnExit s, [s, cleanupOnExit s], []⟩
    else
      let r := runOps rest s
      ⟨r.outcome, r.final, s :: r.trace, r.executed⟩
  | Op.panicIf tag cond :: rest, s =>
    if cond then
      ⟨Outcome.panicked tag, cleanupOnExit s, [s, cleanupOnExit s], []⟩
    else
      let r := runOps rest s
      ⟨r.outcome, r.final, s :: r.trace, r.executed⟩
  | Op.createDir tag ok :: rest, s =>
    if ok then
      let r := runOps rest ⟨true, true, s.machOwns⟩
      ⟨r.outcome, r.final, s :: r.trace, tag :: r.executed⟩
    else
      ⟨Outcome.err tag, cleanupOnExit s, [s, cleanupOnExit s], [tag]⟩
  | Op.clearOrch :: rest, s =>
    let r := runOps rest ⟨s.dirExists, false, s.machOwns⟩
    ⟨r.outcome, r.final, s :: r.trace, r.executed⟩
  | Op.giveMachine :: rest, s =>
    let r := runOps rest ⟨s.dirExists, s.orchOwns, true⟩
    ⟨r.outcome, r.final, s :: r.trace, r.executed⟩

/-- A step that is neither the ownership transfer nor the machine handoff. -/
def plainOp : Op → Bool
  | Op.clearOrch => false
  | Op.giveMachine => false
  | _ => true

def plainOps (ops : List Op) : Bool := ops.all plainOp

def isCreate : Op → Bool
  | Op.createDir _ _ => true
  | _ => false

def hasCreate (ops : List Op) : Bool := ops.any isCreate

/-- The ownership discipline the spec claims: on an error or panic return the
temporary directory no longer exists; on a successful return the machine
handle owns the (still-existing) directory and the orchestrator no longer
deletes it; and at no intermediate point do both own it. -/
def ownershipOk (r : RunResult) : Bool :=
  (match r.outcome with
   | Outcome.ok => r.final.machOwns && !r.final.orchOwns && r.final.dirExists
   | Outcome.err _ => !r.final.dirExists
   | Outcome.panicked _ => !r.final.dirExists)
  && r.trace.all (fun s => !(s.orchOwns && s.machOwns))

/-- Central invariant lemma: any install path made of plain steps followed by
the transfer tail (`cleanupTempdir = false` then `InstalledMachine{...}`)
satisfies the ownership discipline. -/
theorem runOps_ownership (ops : List Op) (s : OwnSt)
    (h1 : s.machOwns = false)
    (h2 : s.dirExists = true → s.orchOwns = true)
    (h3 : plainOps ops = true)
    (h4 : (s.dirExists || hasCreate ops) = true) :
    ownershipOk (runOps (ops ++ [Op.clearOrch, Op.giveMachine]) s) = true := by
  induction ops generalizing s with
  | nil =>
    rcases s with ⟨d, o, m⟩
    simp only [OwnSt.machOwns] at h1
    subst h1
    simp [hasCreate] at h4
    subst h4
    simp [runOps, ownershipOk]
  | cons op rest ih =>
    rcases s with ⟨d, o, m⟩
    simp only [OwnSt.machOwns] at h1
    subst h1
    have hplain : plainOp op = true ∧ plainOps rest = true := by
      simpa [plainOps] using h3
    cases op with
    | failable tag ok =>
      cases ok with
      | true =>
        have h4' : (d || hasCreate rest) = true := by
          simpa [hasCreate, isCreate] using h4
        have := ih ⟨d, o, false⟩ rfl h2 hplain.2 h4'
        simp only [List.cons_append, runOps, if_pos] at *
        revert this
        unfold ownershipOk
        cases hrec : runOps (rest ++ [Op.clearOrch, Op.giveMachine]) ⟨d, o, false⟩
        simp_all
      | false =>
        simp only [List.cons_append, runOps]
        cases d with
        | false => simp [ownershipOk, cleanupOnExit]; cases o <;> simp
        | true =>
          have ho := h2 rfl
          subst ho
          simp [ownershipOk, cleanupOnExit]
    | errIf tag cond =>
      cases cond with
      | false =>
        have h4' : (d || hasCreate rest) = true := by
          simpa [hasCreate, isCreate] using h4
        have := ih ⟨d, o, false⟩ rfl h2 hplain.2 h4'
        simp only [List.cons_append, runOps, if_neg] at *
        revert this
        unfold ownershipOk
        cases hrec : runOps (rest ++ [Op.clearOrch, Op.giveMachine]) ⟨d, o, false⟩
        simp_all
      | true =>
        simp only [List.cons_append, runOps]
        cases d with
        | false => simp [ownershipOk, cleanupOnExit]; cases o <;> simp
        | true =>
          have ho := h2 rfl
          subst ho
          simp [ownershipOk, cleanupOnExit]
    | panicIf tag cond =>
      cases cond with
      | false =>
        have h4' : (d || hasCreate rest) = true := by
          simpa [hasCreate, isCreate] using h4
        have := ih ⟨d, o, false⟩ rfl h2 hplain.2 h4'
        simp only [List.cons_append, runOps, if_neg] at *
        revert this
        unfold ownershipOk
        cases hrec : runOps (rest ++ [Op.clearOrch, Op.giveMachine]) ⟨d, o, false⟩
        simp_all
      | true =>
        simp only [List.cons_append, runOps]
        cases d with
        | false => simp [ownershipOk, cleanupOnExit]; cases o <;> simp
        | true =>
          have ho := h2 rfl
          subst ho
          simp [ownershipOk, cleanupOnExit]
    | createDir tag ok =>
      cases ok with
      | true =>
        have := ih ⟨true, true, false⟩ rfl (fun _ => rfl) hplain.2 (by simp)
        simp only [List.cons_append, runOps, if_pos] at *
        revert this
        unfold ownershipOk
        cases hrec : runOps (rest ++ [Op.clearOrch, Op.giveMachine]) ⟨true, true, false⟩
        simp_all
      | false =>
        simp only [List.cons_append, runOps]
        cases d with
        | false => simp [ownershipOk, cleanupOnExit]; cases o <;> simp
        | true =>
          have ho := h2 rfl
          subst ho
          simp [ownershipOk, cleanupOnExit]
    | clearOrch => simp [plainOp] at hplain
    | giveMachine => simp [plainOp] at hplain

/-- A step records `t` among the executed actions only when it is a
`failable` or `createDir` step carrying that tag. -/
def opHasTag : Op → Tag → Bool
  | Op.failable tag _, t => tag == t
  | Op.createDir tag _, t => tag == t
  | _, _ => false

/-- Actions never present in the step list never appear among the executed
actions. -/
theorem runOps_executed_subset (ops : List Op) (s : OwnSt) (t : Tag)
    (h : ops.all (fun op => !opHasTag op t) = true) :
    (runOps ops s).executed.contains t = false := by
  induction ops generalizing s with
  | nil => simp [runOps]
  | cons op rest ih =>
    have hop : (!opHasTag op t) = true ∧ rest.all (fun op => !opHasTag op t) = true := by
      simpa using h
    cases op with
    | failable tag ok =>
      have htag : (tag == t) = false := by simpa [opHasTag] using hop.1
      have hne : ¬t = tag := by
        intro hh
        subst hh
        simp at htag
      cases ok with
      | true =>
        have ihs := ih s hop.2
        simp [runOps] at ihs ⊢
        exact ⟨hne, ihs⟩
      | false =>
        simp [runOps]
        exact hne
    | errIf tag cond =>
      cases cond with
      | true => simp [runOps]
      | false =>
        have ihs := ih s hop.2
        simp [runOps] at ihs ⊢
        exact ihs
    | panicIf tag cond =>
      cases cond with
      | true => simp [runOps]
      | false =>
        have ihs := ih s hop.2
        simp [runOps] at ihs ⊢
        exact ihs
    | createDir tag ok =>
      have htag : (tag == t) = false := by simpa [opHasTag] using hop.1
      have hne : ¬t = tag := by
        intro hh
        subst hh
        simp at htag
      cases ok with
      | true =>
        have ihs := ih ⟨true, true, s.machOwns⟩ hop.2
        simp [runOps] at ihs ⊢
        exact ⟨hne, ihs⟩
      | false =>
        simp [runOps]
        exact hne
    | clearOrch =>
      have ihs := ih ⟨s.dirExists, false, s.machOwns⟩ hop.2
      simp [runOps] at ihs ⊢
      exact ihs
    | giveMachine =>
      have ihs := ih ⟨s.dirExists, s.orchOwns, true⟩ hop.2
      simp [runOps] at ihs ⊢
      exact ihs

/-! ### PXE boot-parameter table and PXE install path -/

/-- The per-architecture console kernel argument map (part_000 lines 49-54);
a missing key yields Go's zero value `""`. -/
def consoleKernelArgument (arch : String) : String :=
  if arch == "x86_64" then "ttyS0,115200n8"
  else if arch == "ppc64le" then "hvc0"
  else if arch == "aarch64" then "ttyAMA0"
  else if arch == "s390x" then "ttysclp0"
  else ""

/-- Architecture-derived PXE boot parameters (the fields of `pxeSetup`,
part_000 lines 171-180). -/
structure PxeData where
  tftpipaddr : String
  boottype : String
  networkdevice : String
  bootindex : String
  pxeimagepath : String
  bootfile : String
deriving DecidableEq, Repr

/-- The fixed per-architecture boot-parameter table of `Install.setup`
(part_000 lines 283-316): `none` is the `default:` branch returning
"Unsupported arch".  `tftpipaddr` defaults to `192.168.76.2` and is
overridden only for s390x. -/
def pxeTable (arch firmware : String) : Option PxeData :=
  if arch == "x86_64" then
    some (if firmware == "uefi" then
            ⟨"192.168.76.2", "grub", "e1000", "2",
             "/boot/efi/EFI/fedora/grubx64.efi", "/boot/grub2/grubx64.efi"⟩
          else
            ⟨"192.168.76.2", "pxe", "e1000", "", "/usr/share/syslinux/", ""⟩)
  else if arch == "aarch64" then
    some ⟨"192.168.76.2", "grub", "virtio-net-pci", "1",
          "/boot/efi/EFI/fedora/grubaa64.efi", "/boot/grub2/grubaa64.efi"⟩
  else if arch == "ppc64le" then
    some ⟨"192.168.76.2", "grub", "virtio-net-pci", "", "",
          "/boot/grub2/powerpc-ieee1275/core.elf"⟩
  else if arch == "s390x" then
    some ⟨"10.0.2.2", "pxe", "virtio-net-ccw", "1", "", ""⟩
  else
    none

/-- Success/failure outcomes of the external calls made along the PXE path,
one field per fallible call in `Install.setup`, `runPXE`,
`installerRun.completePxeSetup` and `installerRun.run`. -/
structure PxeEnv where
  checkArtifactsOk : Bool
  mkdirTempOk : Bool
  mkdirTftpOk : Bool
  writeConfigIgnOk : Bool
  writeLiveIgnOk : Bool
  symlinkKernelOk : Bool
  symlinkInitramfsOk : Bool
  symlinkRootfsOk : Bool
  removeInitrdOk : Bool
  catOk : Bool
  symlinkMetalOk : Bool
  listenOk : Bool
  virtioOk : Bool
  mkdirPxeConfigOk : Bool
  writePxeConfigOk : Bool
  mkS390Ok : Bool
  cpPxeOk : Bool
  mknetdirOk : Bool
  cpGrubOk : Bool
  writeGrubCfgOk : Bool
  execOk : Bool
deriving DecidableEq, Repr

/-- Steps of `installerRun.completePxeSetup` (part_000 lines 389-470): for
boottype "pxe", create the config dir, write the config, then either run
mk-s390image (when `pxeimagepath` is empty) or cp-reflink the two syslinux
images; for "grub", run grub2-mknetdir, optionally cp-reflink the loader, and
write grub.cfg; any other boottype panics. -/
def completePxeOps (pxe : PxeData) (env : PxeEnv) : List Op :=
  if pxe.boottype == "pxe" then
    [Op.failable Tag.mkdirPxeConfig env.mkdirPxeConfigOk,
     Op.failable Tag.writePxeConfig env.writePxeConfigOk]
    ++ (if pxe.pxeimagepath == "" then
          [Op.failable Tag.mkS390Image env.mkS390Ok]
        else
          [Op.failable Tag.cpReflinkPxe env.cpPxeOk,
           Op.failable Tag.cpReflinkPxe env.cpPxeOk])
  else if pxe.boottype == "grub" then
    [Op.failable Tag.grub2Mknetdir env.mknetdirOk]
    ++ (if pxe.pxeimagepath == "" then []
        else [Op.failable Tag.cpReflinkGrub env.cpGrubOk])
    ++ [Op.failable Tag.writeGrubCfg env.writeGrubCfgOk]
  else
    [Op.panicIf Tag.unhandledBoottype true]

/-- The effectful steps of `Install.setup` followed by the rest of `runPXE`
(part_000 lines 215-348 and 554-588), in source order: artifact check;
MkdirTemp (arming the deferred cleanup); tftp dir; the two Ignition config
writes; the three artifact symlinks; the optional initramfs+rootfs
concatenation; the metal-image symlink; the architecture switch (error for
unsupported arch); the HTTP listener; then the virtio channel open, PXE boot
config completion, and the QEMU launch. -/
def pxeMainOps (appendRootfs : Bool) (arch firmware : String) (env : PxeEnv) :
    List Op :=
  [Op.failable Tag.checkArtifacts env.checkArtifactsOk,
   Op.createDir Tag.mkdirTemp env.mkdirTempOk,
   Op.failable Tag.mkdirTftp env.mkdirTftpOk,
   Op.failable Tag.writeConfigIgn env.writeConfigIgnOk,
   Op.failable Tag.writeLiveIgn env.writeLiveIgnOk,
   Op.failable Tag.symlinkKernel env.symlinkKernelOk,
   Op.failable Tag.symlinkInitramfs env.symlinkInitramfsOk,
   Op.failable Tag.symlinkRootfs env.symlinkRootfsOk]
  ++ (if appendRootfs then
        [Op.failable Tag.removeInitrd env.removeInitrdOk,
         Op.failable Tag.catInitrdRootfs env.catOk]
      else [])
  ++ [Op.failable Tag.symlinkMetal env.symlinkMetalOk]
  ++ (match pxeTable arch firmware with
      | none => [Op.errIf Tag.unsupportedArch true]
      | some pxe =>
        [Op.errIf Tag.unsupportedArch false,
         Op.failable Tag.httpListen env.listenOk,
         Op.failable Tag.virtioChannelRead env.virtioOk]
        ++ completePxeOps pxe env
        ++ [Op.failable Tag.qemuExec env.execOk])

/-- The PXE install path as a whole: the effectful steps, then the ownership
transfer (`t.tempdir = ""`) and machine construction of `runPXE`
(part_000 lines 580-587). -/
def pxeRunModel (appendRootfs : Bool) (arch firmware : String) (env : PxeEnv) :
    RunResult :=
  runOps (pxeMainOps appendRootfs arch firmware env ++ [Op.clearOrch, Op.giveMachine])
    ⟨false, false, false⟩

/-! ### ISO install path (`InstallViaISOEmbed`) -/

/-- Success/failure outcomes of the external calls made by
`InstallViaISOEmbed`, one field per fallible call, in source order. -/
structure IsoEnv where
  checkArtifactsOk : Bool
  mkdirTempOk : Bool
  writeTargetTempOk : Bool
  writeTargetOutOk : Bool
  copyIsoOk : Bool
  chmodOk : Bool
  symlinkMetalOk : Bool
  listenOk : Bool
  extractOk : Bool
  renderPointerOk : Bool
  writePointerOk : Bool
  networkEmbedOk : Bool
  kargsModifyOk : Bool
  yamlOk : Bool
  virtioOk : Bool
  writeLiveOutOk : Bool
  addIsoOk : Bool
  execOk : Bool
deriving DecidableEq, Repr

/-- Caller-controlled inputs of `InstallViaISOEmbed` and of the receiver
`Install`: the mode flags, the debug environment toggle, the network keyfiles
(name plus the success of its `os.WriteFile`), and the caller kernel
arguments. -/
structure IsoFlags where
  native4k : Bool
  multiPathDisk : Bool
  insecure : Bool
  offline : Bool
  minimal : Bool
  debugEnv : Bool
  nmKeyfiles : List (String × Bool)
  kargs : List String
deriving DecidableEq, Repr

/-- The debug kernel arguments appended when the `COSA_TESTISO_DEBUG`
environment variable is present (part_000 lines 371-379). -/
def debugKargs (debugEnv : Bool) : List String :=
  if debugEnv then
    ["systemd.log_color=0", "systemd.log_level=debug",
     "systemd.journald.forward_to_console=1",
     "systemd.journald.max_level_console=debug"]
  else []

/-- The kernel arguments accumulated on `inst.kargs` by the time the
`iso kargs modify` invocation is considered (part_000 lines 634, 776, 779):
debug kargs, then the caller's kargs, then `rd.neednet=1` when keyfiles were
embedded. -/
def isoFinalKargs (fl : IsoFlags) : List String :=
  (debugKargs fl.debugEnv ++ fl.kargs)
    ++ (if fl.nmKeyfiles.isEmpty then [] else ["rd.neednet=1"])

/-- The effectful steps of `InstallViaISOEmbed` (part_000 lines 600-857) in
source order: artifact check; the `minimal && offline` panic; the
offline-with-keyfiles usage error; MkdirTemp (arming the deferred cleanup);
the two target-config writes; the ISO copy and chmod; the metal symlink; the
networked branch (HTTP listener, optional minimal-ISO extraction, pointer
config render and write); one write per network keyfile and the network
embed; the kargs modification; the installer-config YAML marshal; the virtio
channel open; the live-config write; AddIso; and the QEMU launch. -/
def isoMainOps (fl : IsoFlags) (env : IsoEnv) : List Op :=
  [Op.failable Tag.checkArtifacts env.checkArtifactsOk,
   Op.panicIf Tag.minimalOffline (fl.minimal && fl.offline),
   Op.errIf Tag.offlineNmKeyfiles (fl.offline && !fl.nmKeyfiles.isEmpty),
   Op.createDir Tag.mkdirTemp env.mkdirTempOk,
   Op.failable Tag.writeTargetIgnTemp env.writeTargetTempOk,
   Op.failable Tag.writeTargetIgnOut env.writeTargetOutOk,
   Op.failable Tag.copyIso env.copyIsoOk,
   Op.failable Tag.chmodIso env.chmodOk,
   Op.failable Tag.symlinkMetal env.symlinkMetalOk]
  ++ (if fl.offline then []
      else
        [Op.failable Tag.httpListen env.listenOk]
        ++ (if fl.minimal then [Op.failable Tag.isoExtractMinimal env.extractOk] else [])
        ++ [Op.failable Tag.renderPointerConfig env.renderPointerOk,
            Op.failable Tag.writePointerOut env.writePointerOk])
  ++ fl.nmKeyfiles.map (fun kv => Op.failable (Tag.writeKeyfile kv.1) kv.2)
  ++ (if fl.nmKeyfiles.isEmpty then []
      else [Op.failable Tag.isoNetworkEmbed env.networkEmbedOk])
  ++ (if (isoFinalKargs fl).isEmpty then []
      else [Op.failable Tag.isoKargsModify env.kargsModifyOk])
  ++ [Op.failable Tag.yamlMarshal env.yamlOk,
      Op.failable Tag.virtioChannelRead env.virtioOk,
      Op.failable Tag.writeLiveConfigOut env.writeLiveOutOk,
      Op.failable Tag.addIso env.addIsoOk,
      Op.failable Tag.qemuExec env.execOk]

/-- The ISO install path as a whole: the effectful steps, then the ownership
transfer (`cleanupTempdir = false`) and machine construction
(part_000 lines 850-856). -/
def isoRunModel (fl : IsoFlags) (env : IsoEnv) : RunResult :=
  runOps (isoMainOps fl env ++ [Op.clearOrch, Op.giveMachine]) ⟨false, false, false⟩

theorem completePxeOps_plain (pxe : PxeData) (env : PxeEnv) :
    plainOps (completePxeOps pxe env) = true := by
  unfold completePxeOps plainOps
  by_cases h1 : pxe.boottype == "pxe" <;>
    by_cases h2 : pxe.boottype == "grub" <;>
      by_cases h3 : pxe.pxeimagepath == "" <;>
        simp [h1, h2, h3, plainOp]

theorem pxeMainOps_plain (appendRootfs : Bool) (arch firmware : String)
    (env : PxeEnv) : plainOps (pxeMainOps appendRootfs arch firmware env) = true := by
  unfold pxeMainOps
  have hc := completePxeOps_plain
  rcases htbl : pxeTable arch firmware with _ | pxe <;>
    cases appendRootfs <;>
      simp_all [plainOps, plainOp]
  all_goals exact hc pxe env

theorem pxeMainOps_hasCreate (appendRootfs : Bool) (arch firmware : String)
    (env : PxeEnv) : hasCreate (pxeMainOps appendRootfs arch firmware env) = true := by
  unfold pxeMainOps hasCreate
  simp [isCreate]

theorem isoMainOps_plain (fl : IsoFlags) (env : IsoEnv) :
    plainOps (isoMainOps fl env) = true := by
  unfold isoMainOps plainOps
  cases fl.offline <;>
    cases fl.minimal <;>
      by_cases hk : fl.nmKeyfiles.isEmpty <;>
        by_cases ha : (isoFinalKargs fl).isEmpty <;>
          simp [hk, ha, plainOp, List.all_map, Function.comp]
  all_goals
    rintro x n (⟨-, rfl⟩ | ⟨-, rfl⟩) <;> rfl

theorem isoMainOps_hasCreate (fl : IsoFlags) (env : IsoEnv) :
    hasCreate (isoMainOps fl env) = true := by
  unfold isoMainOps hasCreate
  simp [isCreate]

/-- C3. Temporary-directory ownership: on every error (or panic) return of
the PXE setup/run path (`Install.setup` / `installerRun` / `runPXE`, modelled
together by `pxeRunModel`) and of `InstallViaISOEmbed` (`isoRunModel`), the
temporary directory has been removed before the return; on every successful
return the machine handle owns the still-existing directory and the
orchestrator no longer deletes it; and at no intermediate state do both the
orchestrator and the machine handle own the directory. -/
theorem c3_tempdir_ownership (appendRootfs : Bool) (arch firmware : String)
    (penv : PxeEnv) (fl : IsoFlags) (ienv : IsoEnv) :
    ownershipOk (pxeRunModel appendRootfs arch firmware penv) = true
      ∧ ownershipOk (isoRunModel fl ienv) = true := by
  constructor
  · exact runOps_ownership _ _ rfl (by simp) (pxeMainOps_plain _ _ _ _)
      (by simp [pxeMainOps_hasCreate])
  · exact runOps_ownership _ _ rfl (by simp) (isoMainOps_plain _ _)
      (by simp [isoMainOps_hasCreate])

/-- C4. `InstallViaISOEmbed` with `minimal = true` and `offline = true`
(flags fields: native4k, multiPathDisk, insecure, offline, minimal, debugEnv,
keyfiles, kargs) fails fast: a panic (`"Can't run minimal install offline"`)
once the artifact-existence check passes, or the artifact error before it;
in both cases the temporary directory never exists at any point and the only
external action that ran is the artifact check. -/
theorem c4_minimal_offline_fails_fast (n4 mp ins dbg : Bool)
    (kf : List (String × Bool)) (ka : List String) (env : IsoEnv) :
    (isoRunModel ⟨n4, mp, ins, true, true, dbg, kf, ka⟩ env).outcome
        = (if env.checkArtifactsOk then Outcome.panicked Tag.minimalOffline
           else Outcome.err Tag.checkArtifacts)
      ∧ (isoRunModel ⟨n4, mp, ins, true, true, dbg, kf, ka⟩ env).trace.all
          (fun s => !s.dirExists) = true
      ∧ (isoRunModel ⟨n4, mp, ins, true, true, dbg, kf, ka⟩ env).executed
          = [Tag.checkArtifacts] := by
  cases h : env.checkArtifactsOk <;>
    simp [isoRunModel, isoMainOps, runOps, cleanupOnExit, h]

/-- An environment in which every external call of the ISO path succeeds. -/
def allOkIsoEnv : IsoEnv :=
  ⟨true, true, true, true, true, true, true, true, true,
   true, true, true, true, true, true, true, true, true⟩

/-- C5 counterexample: a call to `InstallViaISOEmbed` with `offline = true`
and a non-empty `NmKeyfiles` map, but also `minimal = true`, does not return
a recoverable usage error — it panics at the `minimal && offline` check,
which precedes the keyfile check. -/
theorem c5_counterexample :
    (isoRunModel ⟨false, false, false, true, true, false,
        [("eth0.nmconnection", true)], []⟩ allOkIsoEnv).outcome
      = Outcome.panicked Tag.minimalOffline := by
  decide

/-- C5 (amended): for every call to `InstallViaISOEmbed` with
`offline = true`, a non-empty `NmKeyfiles` map and `minimal = false`, the
call returns a recoverable error — the keyfile usage error, or the artifact
error when the artifact check fails first — and it does so before the source
ISO is copied and before any temporary directory is created. -/
theorem c5_offline_keyfiles_usage_error (n4 mp ins dbg : Bool)
    (k : String × Bool) (kfs : List (String × Bool)) (ka : List String)
    (env : IsoEnv) :
    (isoRunModel ⟨n4, mp, ins, true, false, dbg, k :: kfs, ka⟩ env).outcome
        = (if env.checkArtifactsOk then Outcome.err Tag.offlineNmKeyfiles
           else Outcome.err Tag.checkArtifacts)
      ∧ (isoRunModel ⟨n4, mp, ins, true, false, dbg, k :: kfs, ka⟩ env).executed.contains
          Tag.copyIso = false
      ∧ (isoRunModel ⟨n4, mp, ins, true, false, dbg, k :: kfs, ka⟩ env).trace.all
          (fun s => !s.dirExists) = true := by
  cases h : env.checkArtifactsOk <;>
    simp [isoRunModel, isoMainOps, runOps, cleanupOnExit, h]

/-- The architectures handled by the `switch coreosarch.CurrentRpmArch()`
of `Install.setup`. -/
def supportedArches : List String := ["x86_64", "aarch64", "ppc64le", "s390x"]

/-- An environment in which every external call of the PXE path succeeds. -/
def allOkPxeEnv : PxeEnv :=
  ⟨true, true, true, true, true, true, true, true, true, true, true,
   true, true, true, true, true, true, true, true, true, true⟩

/-- C7. PXE boot-parameter resolution is a fixed per-architecture table:
every supported architecture yields a non-empty network device model and a
boot mechanism in {pxe, grub}; every other architecture makes setup fail
immediately with the unsupported-arch error (even when every external call
would succeed); and x86_64 with firmware "uefi" yields mechanism `grub`,
boot index `"2"` and network device `e1000`. -/
theorem c7_pxe_arch_table :
    (∀ arch firmware : String,
      match pxeTable arch firmware with
      | some p =>
          (supportedArches.contains arch
            && !(p.networkdevice == "")
            && (p.boottype == "pxe" || p.boottype == "grub")) = true
      | none =>
          supportedArches.contains arch = false
            ∧ ∀ appendRootfs : Bool,
                (pxeRunModel appendRootfs arch firmware allOkPxeEnv).outcome
                  = Outcome.err Tag.unsupportedArch)
    ∧ pxeTable "x86_64" "uefi"
        = some ⟨"192.168.76.2", "grub", "e1000", "2",
                "/boot/efi/EFI/fedora/grubx64.efi", "/boot/grub2/grubx64.efi"⟩ := by
  constructor
  · intro arch firmware
    by_cases h1 : arch = "x86_64"
    · subst h1
      by_cases h5 : firmware = "uefi"
      · subst h5
        simp [pxeTable, supportedArches]
      · simp [pxeTable, h5, supportedArches]
    · by_cases h2 : arch = "aarch64"
      · subst h2
        simp [pxeTable, supportedArches]
      · by_cases h3 : arch = "ppc64le"
        · subst h3
          simp [pxeTable, supportedArches]
        · by_cases h4 : arch = "s390x"
          · subst h4
            simp [pxeTable, supportedArches]
          · have htbl : pxeTable arch firmware = none := by
              simp [pxeTable, h1, h2, h3, h4]
            simp only [htbl]
            refine ⟨by simp [supportedArches, h1, h2, h3, h4], ?_⟩
            intro appendRootfs
            cases appendRootfs <;>
              simp [pxeRunModel, pxeMainOps, htbl, allOkPxeEnv, runOps, cleanupOnExit]
  · rfl

/-! ### Installer-directive configuration and target-config delivery -/

/-- The `installerConfig` YAML structure (part_000 lines 590-598). -/
structure InstallerConfigM where
  imageURL : String
  ignitionFile : String
  insecure : Bool
  appendKargs : List String
  copyNetwork : Bool
  destDevice : String
  console : List String
deriving DecidableEq, Repr

/-- The installer config built at the start of `InstallViaISOEmbed`
(part_000 lines 617-632): ignition file `/var/opt/pointer.ign`, destination
device `/dev/vda`, debug kargs; console set except on s390x; when
`MultiPathDisk` is set the destination becomes `/dev/mapper/mpatha` and the
three multipath kernel arguments are appended. -/
def isoInstallerConfigInit (arch : String) (multiPath debugEnv : Bool) :
    InstallerConfigM :=
  let base : InstallerConfigM :=
    { imageURL := ""
      ignitionFile := "/var/opt/pointer.ign"
      insecure := false
      appendKargs := debugKargs debugEnv
      copyNetwork := false
      destDevice := "/dev/vda"
      console := if arch == "s390x" then [] else [consoleKernelArgument arch] }
  if multiPath then
    { base with
        destDevice := "/dev/mapper/mpatha"
        appendKargs := base.appendKargs
          ++ ["rd.multipath=default", "root=/dev/disk/by-label/dm-mpath-root", "rw"] }
  else base

/-- The installer config built by `Install.PXE` (part_000 lines 125-128):
only the console and the debug kargs are set; every other field keeps its Go
zero value — in particular no destination device. -/
def pxeInstallerConfig (arch : String) (debugEnv : Bool) : InstallerConfigM :=
  { imageURL := ""
    ignitionFile := ""
    insecure := false
    appendKargs := debugKargs debugEnv
    copyNetwork := false
    destDevice := ""
    console := [consoleKernelArgument arch] }

/-- How the target Ignition config reaches the guest. -/
inductive TargetDelivery where
  | verbatim (serialized : String)
  | pointer (url : String)
deriving DecidableEq, Repr

/-- The `serializedTargetConfig` resolution of `InstallViaISOEmbed`
(part_000 lines 688-753): offline installs serialize the caller's target
config directly (`inst.ignition.String()`); networked installs build a
pointer config fetching `<baseurl>/target.ign`. -/
def isoTargetDelivery (offline : Bool) (targetSerialized baseurl : String) :
    TargetDelivery :=
  if offline then TargetDelivery.verbatim targetSerialized
  else TargetDelivery.pointer (baseurl ++ "/target.ign")

/-- Whether `InstallViaISOEmbed` enables usermode networking on the builder
(part_000 lines 841-844; the builder field starts at Go's zero value
`false`). -/
def isoUsermodeNetworking (offline : Bool) : Bool := !offline

theorem isoMainOps_no_httpListen (fl : IsoFlags) (env : IsoEnv)
    (hoff : fl.offline = true) :
    (isoMainOps fl env).all (fun op => !opHasTag op Tag.httpListen) = true := by
  unfold isoMainOps
  by_cases hk : fl.nmKeyfiles.isEmpty <;>
    by_cases ha : (isoFinalKargs fl).isEmpty <;>
      simp [hoff, hk, ha, opHasTag, List.all_map, Function.comp]
  all_goals
    rintro x n (⟨-, rfl⟩ | ⟨-, rfl⟩) <;> rfl

/-- C8. For every `InstallViaISOEmbed` call with `offline = true` and
`minimal = false`: the target config delivered to the guest is the verbatim
serialization of the caller's target Ignition config (no pointer
indirection), embedded at the fixed guest path `/var/opt/pointer.ign`; the
ephemeral HTTP listener is never started on any execution of the call; and
usermode networking is not enabled on the VM builder. -/
theorem c8_offline_iso_embeds_verbatim (targetSer baseurl arch : String)
    (n4 mp ins dbg : Bool) (kf : List (String × Bool)) (ka : List String)
    (env : IsoEnv) :
    isoTargetDelivery true targetSer baseurl = TargetDelivery.verbatim targetSer
      ∧ (isoInstallerConfigInit arch mp dbg).ignitionFile = "/var/opt/pointer.ign"
      ∧ isoUsermodeNetworking true = false
      ∧ (isoRunModel ⟨n4, mp, ins, true, false, dbg, kf, ka⟩ env).executed.contains
          Tag.httpListen = false := by
  refine ⟨rfl, ?_, rfl, ?_⟩
  · unfold isoInstallerConfigInit
    cases mp <;> rfl
  · apply runOps_executed_subset
    rw [List.all_append]
    rw [isoMainOps_no_httpListen ⟨n4, mp, ins, true, false, dbg, kf, ka⟩ env rfl]
    rfl

/-! ### `InstalledMachine.Destroy` -/

/-- The state of an `InstalledMachine` relevant to `Destroy`: the `Tempdir`
field and the `QemuInst` pointer (identified by a numeric handle; `none` is
the Go `nil`). -/
structure InstalledMachineSt where
  tempdir : String
  qemuInst : Option Nat
deriving DecidableEq, Repr

/-- The observable world `Destroy` acts on: which directories exist and
which QEMU instances are running. -/
structure WorldSt where
  dirs : String → Bool
  running : Nat → Bool

/-- `QemuInstance.Destroy`: stops the instance. -/
def qemuDestroy (v : Nat) (w : WorldSt) : WorldSt :=
  { w with running := fun x => if x = v then false else w.running x }

/-- `os.RemoveAll`: removes the path; succeeds (returns `nil`) whether or not
the path exists. -/
def removeAll (d : String) (w : WorldSt) : WorldSt :=
  { w with dirs := fun x => if x = d then false else w.dirs x }

/-- `InstalledMachine.Destroy` (part_000 lines 156-165): if `QemuInst` is
non-nil, destroy it and set the field to nil; if `Tempdir` is non-empty,
return the result of `os.RemoveAll(Tempdir)` (modelled as always `nil`, as
it is for an already-removed path); otherwise return `nil`.  The `Tempdir`
field is not cleared. -/
def imDestroy (m : InstalledMachineSt) (w : WorldSt) :
    Option String × InstalledMachineSt × WorldSt :=
  let mw :=
    match m.qemuInst with
    | some v => (({ m with qemuInst := none } : InstalledMachineSt), qemuDestroy v w)
    | none => (m, w)
  if mw.1.tempdir ≠ "" then (none, mw.1, removeAll mw.1.tempdir mw.2)
  else (none, mw.1, mw.2)

/-- C9. `InstalledMachine.Destroy` is idempotent: both calls return no
error; the second call leaves the machine state and the world (directories
and running instances, pointwise) unchanged; after the first call the
`QemuInst` field is nil, the instance it held is stopped, and the temporary
directory (when one was owned, i.e. `Tempdir` non-empty) no longer exists —
including for a machine whose directory ownership was never transferred
(`Tempdir = ""`), where no directory is touched. -/
theorem c9_destroy_idempotent (m : InstalledMachineSt) (w : WorldSt) :
    (imDestroy m w).1 = none
      ∧ (imDestroy (imDestroy m w).2.1 (imDestroy m w).2.2).1 = none
      ∧ (imDestroy (imDestroy m w).2.1 (imDestroy m w).2.2).2.1
          = (imDestroy m w).2.1
      ∧ (∀ d, (imDestroy (imDestroy m w).2.1 (imDestroy m w).2.2).2.2.dirs d
          = (imDestroy m w).2.2.dirs d)
      ∧ (∀ v, (imDestroy (imDestroy m w).2.1 (imDestroy m w).2.2).2.2.running v
          = (imDestroy m w).2.2.running v)
      ∧ (imDestroy m w).2.1.qemuInst = none
      ∧ (match m.qemuInst with
         | some v => (imDestroy m w).2.2.running v = false
         | none => True)
      ∧ (m.tempdir = "" ∨ (imDestroy m w).2.2.dirs m.tempdir = false) := by
  rcases m with ⟨td, qi⟩
  by_cases htd : td = ""
  · subst htd
    rcases qi with _ | v <;>
      simp [imDestroy, qemuDestroy, removeAll]
  · rcases qi with _ | v <;>
      simp [imDestroy, qemuDestroy, removeAll, htd]

/-! ### Readiness polling of `NewMachineWithQemuOptions` -/

/-- Result of a bounded-retry run: the final error (Go's `err` after the
loop), the number of attempts actually made, and the total seconds slept
between attempts. -/
structure RetryResult where
  result : Option String
  attempts : Nat
  sleptSec : Nat
deriving DecidableEq, Repr

/-- Modelled from the spec: the loop of `util.Retry` (mantle/util, not under
src/) — "poll for a management-channel address with bounded retry (6
attempts, 5-second spacing)".  `f i` is the outcome of attempt `i`
(`none` = success); the loop stops at the first success, sleeps `delay`
seconds between consecutive attempts, and returns the last error when every
attempt fails. -/
def retryLoop (f : Nat → Option String) (delay : Nat) :
    Nat → Nat → Nat → Option String → RetryResult
  | i, 0, slept, last => ⟨last, i, slept⟩
  | i, fuel + 1, slept, _ =>
    match f i with
    | none => ⟨none, i + 1, slept⟩
    | some e =>
      retryLoop f delay (i + 1) fuel
        (if fuel == 0 then slept else slept + delay) (some e)

/-- Modelled from the spec: `util.Retry attempts delay f`. -/
def retryModel (attempts delay : Nat) (f : Nat → Option String) : RetryResult :=
  retryLoop f delay 0 attempts 0 none

/-- The readiness poll of `NewMachineWithQemuOptions`
(cluster.go line 222): `util.Retry(6, 5*time.Second, ...)` around
`inst.SSHAddress()`. -/
def sshReadinessPoll (f : Nat → Option String) : RetryResult :=
  retryModel 6 5 f

/-- Failure conditions of the launch phase of `NewMachineWithQemuOptions`
(cluster.go lines 216-241), distinguished by the step that produced them. -/
inductive LaunchError where
  | execFailed (e : String)
  | unreachable (e : String)
  | startMachineFailed (e : String)
deriving DecidableEq, Repr

/-- The launch tail of `NewMachineWithQemuOptions` (cluster.go lines
216-241): `builder.Exec()`, then the readiness poll, then the optional
`StartMachine` handshake. -/
def launchAndPoll (execErr : Option String) (f : Nat → Option String)
    (skipStart : Bool) (startErr : Option String) : Except LaunchError Unit :=
  match execErr with
  | some e => Except.error (LaunchError.execFailed e)
  | none =>
    match (sshReadinessPoll f).result with
    | some e => Except.error (LaunchError.unreachable e)
    | none =>
      if skipStart then Except.ok ()
      else
        match startErr with
        | some e => Except.error (LaunchError.startMachineFailed e)
        | none => Except.ok ()

theorem retryLoop_attempts_le (f : Nat → Option String) (delay : Nat) :
    ∀ (fuel i slept : Nat) (last : Option String),
      (retryLoop f delay i fuel slept last).attempts ≤ i + fuel := by
  intro fuel
  induction fuel with
  | zero => intro i slept last; simp [retryLoop]
  | succ n ih =>
    intro i slept last
    unfold retryLoop
    cases f i with
    | none =>
      show i + 1 ≤ i + (n + 1)
      omega
    | some e =>
      have := ih (i + 1) (if n == 0 then slept else slept + delay) (some e)
      simp only
      omega

theorem retryLoop_allfail (f : Nat → Option String) (delay : Nat) :
    ∀ (fuel i slept : Nat) (last : Option String),
      1 ≤ fuel → (∀ j, j < fuel → (f (i + j)).isSome = true) →
      retryLoop f delay i fuel slept last
        = ⟨f (i + fuel - 1), i + fuel, slept + delay * (fuel - 1)⟩ := by
  intro fuel
  induction fuel with
  | zero => omega
  | succ n ih =>
    intro i slept last _ hall
    have h0 : (f i).isSome = true := by
      have := hall 0 (by omega)
      simpa using this
    rcases he : f i with _ | e
    · rw [he] at h0; simp at h0
    · unfold retryLoop
      rw [he]
      cases n with
      | zero => simp [retryLoop, he]
      | succ n' =>
        have hall' : ∀ j, j < n' + 1 → (f (i + 1 + j)).isSome = true := by
          intro j hj
          have := hall (j + 1) (by omega)
          simpa [Nat.add_assoc, Nat.add_comm 1 j] using this
        have hif : (if ((n' + 1 : Nat) == 0) = true then slept else slept + delay)
            = slept + delay := by simp
        rw [hif]
        have hrec := ih (i + 1) (slept + delay) (some e) (by omega) hall'
        simp only [hrec]
        simp only [RetryResult.mk.injEq]
        refine ⟨congrArg f (by omega), by omega, ?_⟩
        simp only [Nat.add_sub_cancel]
        have hmul : delay * (n' + 1) = delay * n' + delay := Nat.mul_succ delay n'
        omega

/-- C6. After launching the VM instance, `NewMachineWithQemuOptions` polls
`SSHAddress` with a bounded retry of exactly 6 attempts spaced 5 seconds
apart (never more than 6 attempts, 25 seconds of spacing over the 6); when
every attempt fails the poll surfaces the last `SSHAddress` error and the
launch fails with the `unreachable` condition, which is distinct from the
`execFailed` and `startMachineFailed` launch failures. -/
theorem c6_readiness_poll_bounded_retry (f : Nat → Option String) :
    (sshReadinessPoll f).attempts ≤ 6
      ∧ ((∀ i, i < 6 → (f i).isSome = true) →
          (sshReadinessPoll f).result = f 5
          ∧ (sshReadinessPoll f).attempts = 6
          ∧ (sshReadinessPoll f).sleptSec = 25
          ∧ (∀ skipStart startErr e e',
              launchAndPoll none f skipStart startErr
                  ≠ Except.error (LaunchError.execFailed e)
                ∧ launchAndPoll none f skipStart startErr
                    ≠ Except.error (LaunchError.startMachineFailed e')
                ∧ launchAndPoll none f skipStart startErr
                    = Except.error (LaunchError.unreachable ((f 5).getD "")))) := by
  constructor
  · exact retryLoop_attempts_le f 5 6 0 0 none
  · intro hall
    have h := retryLoop_allfail f 5 6 0 0 none (by omega) (by simpa using hall)
    have h5 : (f 5).isSome = true := hall 5 (by omega)
    rcases he : f 5 with _ | e5
    · rw [he] at h5; simp at h5
    · have hres : sshReadinessPoll f = ⟨some e5, 6, 25⟩ := by
        unfold sshReadinessPoll retryModel
        rw [h]
        simp [he]
      refine ⟨by simp [hres, he], by simp [hres], by simp [hres], ?_⟩
      intro skipStart startErr e e'
      simp [launchAndPoll, hres, he]

/-- Witness for C6 at a concrete always-failing poll. -/
theorem c6_readiness_poll_bounded_retry_witness :
    (sshReadinessPoll (fun _ => some "dial tcp: connection refused")).attempts = 6
      ∧ (sshReadinessPoll (fun _ => some "dial tcp: connection refused")).sleptSec = 25 :=
  let h := (c6_readiness_poll_bounded_retry
    (fun _ => some "dial tcp: connection refused")).2 (fun _ _ => rfl)
  ⟨h.2.1, h.2.2.1⟩

/-! ### Kernel-argument rendering of the PXE path -/

/-- The PXE-relevant mode flags of the `Install` receiver
(part_000 lines 80-93). -/
structure InstallFlags where
  insecure : Bool
  native4k : Bool
  multiPathDisk : Bool
  pxeAppendRootfs : Bool
deriving DecidableEq, Repr

/-- The base kernel arguments (part_000 line 45). -/
def baseKargs : List String :=
  ["rd.neednet=1", "ip=dhcp", "ignition.firstboot", "ignition.platform.id=metal"]

/-- `renderBaseKargs` (part_000 lines 350-352). -/
def renderBaseKargs (arch : String) : List String :=
  baseKargs ++ ["console=" ++ consoleKernelArgument arch]

/-- `renderInstallKargs` (part_000 lines 354-365): the install device is the
constant `/dev/vda`; the function reads only `t.baseurl`, `t.metalname` and
`t.inst.Insecure`. -/
def renderInstallKargs (baseurl metalname : String) (insecure offline : Bool) :
    List String :=
  ["coreos.inst.install_dev=/dev/vda",
   "coreos.inst.ignition_url=" ++ baseurl ++ "/config.ign"]
  ++ (if !offline then ["coreos.inst.image_url=" ++ baseurl ++ "/" ++ metalname] else [])
  ++ (if insecure then ["coreos.inst.insecure"] else [])

/-- The full kernel-argument list rendered by `runPXE`
(part_000 lines 568-572): base kargs, then `inst.kargs` (debug kargs plus
the caller's, set at part_000 line 140), the live-config URL, and the
install kargs. -/
def pxeKargs (fl : InstallFlags) (arch : String) (debugEnv : Bool)
    (userKargs : List String) (baseurl metalname : String) (offline : Bool) :
    List String :=
  renderBaseKargs arch
    ++ (debugKargs debugEnv ++ userKargs)
    ++ ["ignition.config.url=" ++ baseurl ++ "/pxe-live.ign"]
    ++ renderInstallKargs baseurl metalname fl.insecure offline

theorem multipath_karg_ne_console (arch : String) :
    ¬("rd.multipath=default" = "console=" ++ consoleKernelArgument arch) := by
  unfold consoleKernelArgument
  split
  · decide
  · split
    · decide
    · split
      · decide
      · split
        · decide
        · decide

/-- C10. PXE install kernel arguments always designate
`coreos.inst.install_dev=/dev/vda`, and the whole rendered PXE
kernel-argument list is invariant under the `MultiPathDisk` flag; the
multipath destination `/dev/mapper/mpatha` and the multipath kernel argument
`rd.multipath=default` come only from the ISO path's installer config (set
exactly when `MultiPathDisk` is requested there) and appear in none of the
orchestrator-rendered PXE argument sources, whose installer config has no
destination device at all. -/
theorem c10_pxe_vda_multipath_iso_only (arch baseurl metalname : String)
    (debugEnv offline insecure n4 ar : Bool) (userKargs : List String) :
    (∀ mp mp' : Bool,
        pxeKargs ⟨insecure, n4, mp, ar⟩ arch debugEnv userKargs baseurl metalname offline
          = pxeKargs ⟨insecure, n4, mp', ar⟩ arch debugEnv userKargs baseurl metalname offline)
      ∧ (∀ mp : Bool,
          (pxeKargs ⟨insecure, n4, mp, ar⟩ arch debugEnv userKargs baseurl metalname
              offline).contains "coreos.inst.install_dev=/dev/vda" = true)
      ∧ (renderBaseKargs arch).contains "rd.multipath=default" = false
      ∧ (renderInstallKargs baseurl metalname insecure offline).contains
          "rd.multipath=default" = false
      ∧ (debugKargs debugEnv).contains "rd.multipath=default" = false
      ∧ (pxeInstallerConfig arch debugEnv).destDevice = ""
      ∧ (isoInstallerConfigInit arch true debugEnv).destDevice = "/dev/mapper/mpatha"
      ∧ (isoInstallerConfigInit arch true debugEnv).appendKargs.contains
          "rd.multipath=default" = true
      ∧ (isoInstallerConfigInit arch false debugEnv).destDevice = "/dev/vda"
      ∧ (isoInstallerConfigInit arch false debugEnv).appendKargs.contains
          "rd.multipath=default" = false := by
  have hign : ¬("rd.multipath=default"
      = "coreos.inst.ignition_url=" ++ baseurl ++ "/config.ign") := by
    intro he
    have hlen := congrArg String.length he
    simp only [String.length_append] at hlen
    have e1 : ("rd.multipath=default" : String).length = 20 := rfl
    have e2 : ("coreos.inst.ignition_url=" : String).length = 25 := rfl
    omega
  have himg : ¬("rd.multipath=default"
      = "coreos.inst.image_url=" ++ baseurl ++ "/" ++ metalname) := by
    intro he
    have hlen := congrArg String.length he
    simp only [String.length_append] at hlen
    have e1 : ("rd.multipath=default" : String).length = 20 := rfl
    have e2 : ("coreos.inst.image_url=" : String).length = 22 := rfl
    omega
  have hcon := multipath_karg_ne_console arch
  refine ⟨fun mp mp' => rfl, ?_, ?_, ?_, ?_, rfl, ?_, ?_, rfl, ?_⟩
  · intro mp
    simp [pxeKargs, renderInstallKargs]
  · simp [renderBaseKargs, baseKargs, hcon]
  · cases offline <;> cases insecure <;>
      simp [renderInstallKargs, hign, himg]
  · cases debugEnv <;> simp [debugKargs]
  · cases debugEnv <;> simp [isoInstallerConfigInit]
  · cases debugEnv <;> simp [isoInstallerConfigInit, debugKargs]
  · cases debugEnv <;> simp [isoInstallerConfigInit, debugKargs]

end CoreosInstall
